import Mathlib

/-!
Verification development for the Blender-AC3D importer/exporter
(`io_scene_ac3d`: `import_ac3d.py`, `export_ac3d.py`, `AC3D.py`).

The importer is modelled as a shallow embedding: the line reader
(`ImportAC3D.readLine`), the per-object token-dispatch parser
(`AcObj.read_ac_object` and its field handlers), the surface parser
(`AcSurf`), and the geometry derivation (`AcSurf.get_faces`,
`AcSurf.get_edges`, and the `face_list` accumulation of
`AcObj.create_blender_object`).  The exporter side is modelled by the
material records and `same_as` comparisons of `AC3D.py` and
`export_ac3d.py`, the material deduplication loops, and the surface
construction `parse_blender_face` / `SurfaceFlags.getFlags`.

Python numbers are modelled exactly: `int` as `Int`, `float` literals
parsed from file tokens as `ℚ` (the files carry short decimal literals,
far inside the range where IEEE doubles behave exactly like their
decimal reading for the comparisons made here).  Rationals are always
built with `mkRat` over integer arithmetic so that all definitions
evaluate inside the kernel.  Where Python would raise an exception
(IndexError, ValueError, TypeError, AttributeError) the model returns
`Except.error`; host-side Blender calls (mesh/material creation, the
`global_matrix` composition on the world node) are not modelled, as no
claim observes them.
-/

/-- Whitespace as used by Python `str.split()` / `str.strip()` with no
separator argument (the file lines only ever carry spaces and tabs;
newlines are already removed by the line reader). -/
def isPyWs (c : Char) : Bool :=
  c = ' ' || c = '\t' || c = '\n' || c = '\r'

/-- Helper for `pySplit`: splits a character list on whitespace runs,
accumulating the current (reversed) token. -/
def splitWsAux : List Char → List Char → List String
  | [], acc => if acc.isEmpty then [] else [String.mk acc.reverse]
  | c :: cs, acc =>
    if isPyWs c then
      (if acc.isEmpty then [] else [String.mk acc.reverse]) ++ splitWsAux cs []
    else
      splitWsAux cs (c :: acc)

/-- Python `s.split()`: whitespace-separated tokens, empty tokens dropped. -/
def pySplit (s : String) : List String :=
  splitWsAux s.data []

/-- Python `s.strip()`: remove leading and trailing whitespace. -/
def pyStrip (s : String) : String :=
  String.mk (((s.data.dropWhile isPyWs).reverse.dropWhile isPyWs).reverse)

/-- Python `s.strip(c)` for one character `c`, as used by
`toks[1].strip(chr)` in the importer: removes every leading and
trailing occurrence of `c`. -/
def pyStripChar (c : Char) (s : String) : String :=
  String.mk (((s.data.dropWhile (· = c)).reverse.dropWhile (· = c)).reverse)

/-- Python `toks[1].strip(chr(34))`, the quote-stripping applied to names,
texture names and urls. -/
def pyStripQuotes (s : String) : String :=
  pyStripChar '"' s

/-- Value of a decimal digit character, `none` for anything else. -/
def digitVal (c : Char) : Option Nat :=
  if c.isDigit then some (c.toNat - 48) else none

/-- Consumes a maximal run of decimal digits: returns the accumulated
value, the number of digits consumed, and the rest of the input. -/
def takeDigits : List Char → Nat → Nat → Nat × Nat × List Char
  | [], acc, cnt => (acc, cnt, [])
  | c :: cs, acc, cnt =>
    match digitVal c with
    | some d => takeDigits cs (acc * 10 + d) (cnt + 1)
    | none => (acc, cnt, c :: cs)

/-- Python `int(tok)` on a whitespace-free token: optional sign followed by
at least one decimal digit.  (Underscore separators, accepted by Python,
never occur in `.ac` files and are not modelled.) -/
def parsePyInt (s : String) : Option Int :=
  let (sign, cs) : Int × List Char :=
    match s.data with
    | '-' :: rest => (-1, rest)
    | '+' :: rest => (1, rest)
    | cs => (1, cs)
  match takeDigits cs 0 0 with
  | (_, 0, _) => none
  | (v, _, []) => some (sign * Int.ofNat v)
  | (_, _, _ :: _) => none

/-- Value of a hexadecimal digit character. -/
def hexDigitVal (c : Char) : Option Nat :=
  if c.isDigit then some (c.toNat - 48)
  else if 'a' ≤ c && c ≤ 'f' then some (c.toNat - 97 + 10)
  else if 'A' ≤ c && c ≤ 'F' then some (c.toNat - 65 + 10)
  else none

/-- Consumes a maximal run of hexadecimal digits. -/
def takeHexDigits : List Char → Nat → Nat → Nat × Nat × List Char
  | [], acc, cnt => (acc, cnt, [])
  | c :: cs, acc, cnt =>
    match hexDigitVal c with
    | some d => takeHexDigits cs (acc * 16 + d) (cnt + 1)
    | none => (acc, cnt, c :: cs)

/-- Python `int(tok, 16)` as applied to the `SURF` flags token: optional
`0x`/`0X` marker followed by hex digits.  Signed hex literals (accepted
by Python, meaningless for flag words) are not modelled. -/
def parseHexInt (s : String) : Option Nat :=
  let cs :=
    match s.data with
    | '0' :: 'x' :: rest => rest
    | '0' :: 'X' :: rest => rest
    | cs => cs
  match takeHexDigits cs 0 0 with
  | (_, 0, _) => none
  | (v, _, []) => some v
  | (_, _, _ :: _) => none

/-- Python `float(tok)` on a whitespace-free token:
`[sign] (digits [. digits] | . digits) [(e|E) [sign] digits]`, returned
as an exact rational.  (`inf`/`nan` literals never occur in `.ac`
geometry and are not modelled.)  The value is assembled with `mkRat`
over integer arithmetic only. -/
def parsePyFloat (s : String) : Option ℚ :=
  let (sign, cs) : Int × List Char :=
    match s.data with
    | '-' :: rest => (-1, rest)
    | '+' :: rest => (1, rest)
    | cs => (1, cs)
  let (ip, ic, cs1) := takeDigits cs 0 0
  let (fp, fc, cs2) :=
    match cs1 with
    | '.' :: rest => takeDigits rest 0 0
    | _ => (0, 0, cs1)
  let hadDot : Bool := match cs1 with | '.' :: _ => true | _ => false
  if ic + fc = 0 then none
  else
    let mantNum : Int := sign * Int.ofNat (ip * 10 ^ fc + fp)
    let mantDen : Nat := 10 ^ fc
    match cs2 with
    | [] => some (mkRat mantNum mantDen)
    | e :: rest =>
      if e = 'e' || e = 'E' then
        let (esign, rest2) : Bool × List Char :=
          match rest with
          | '-' :: r => (true, r)
          | '+' :: r => (false, r)
          | r => (false, r)
        match takeDigits rest2 0 0 with
        | (_, 0, _) => none
        | (ev, _, []) =>
          if esign then some (mkRat mantNum (mantDen * 10 ^ ev))
          else some (mkRat (mantNum * Int.ofNat (10 ^ ev)) mantDen)
        | (_, _, _ :: _) => none
      else
        -- trailing garbage after the mantissa: Python raises ValueError
        let _ := hadDot
        none

/-- Maps Python `[float(x) for x in toks]` over a token list, failing like
the comprehension does when any token is not a float literal. -/
def mapPyFloats : List String → Except String (List ℚ)
  | [] => .ok []
  | t :: ts =>
    match parsePyFloat t with
    | none => .error "ValueError: could not convert string to float"
    | some q =>
      match mapPyFloats ts with
      | .error e => .error e
      | .ok qs => .ok (q :: qs)

/-- State of `ImportAC3D`: the unread (newline-stripped) physical lines of
the file, plus `lastline`/`readPrevious` exactly as initialised at
import_ac3d.py:718-719.  The physical `line_num` counter is only ever
used in an error message of the (itself broken) `except` clause of
`read_ac_file` and is not modelled. -/
structure RState where
  lines : List String
  lastline : String
  readPrevious : Bool
deriving Repr, DecidableEq

/-- Initial reader state for a list of file lines, per
import_ac3d.py:718-719 (`lastline = ''`, `readPrevious = False`). -/
def RState.init (lines : List String) : RState :=
  { lines := lines, lastline := "", readPrevious := false }

/-- The skipping loop inside `ImportAC3D.readLine`
(import_ac3d.py:782-795): keep reading physical lines until one has at
least one token (the `line.strip != chr(39)+chr(39)` comparison in the
source compares a bound method and is always true, so the effective
filter is `len(line.split()) > 0`); `None` at end of file. -/
def nextContentLine : List String → Option (String × List String)
  | [] => none
  | l :: rest =>
    if (pySplit l).length > 0 then some (l, rest) else nextContentLine rest

/-- `ImportAC3D.readLine` (import_ac3d.py:780-800).  When `readPrevious`
is false: skip token-less lines and return the next content line,
recording it in `lastline`.  When true: clear the flag and return
`lastline` again without consuming input. -/
def readLine (st : RState) : Option String × RState :=
  if st.readPrevious = false then
    match nextContentLine st.lines with
    | none => (none, { st with lines := [] })
    | some (l, rest) =>
      (some l, { lines := rest, lastline := l, readPrevious := false })
  else
    (some st.lastline, { st with readPrevious := false })

/-- The decoded `SURF` flag word, `AcSurf.AcSurfFlags`
(import_ac3d.py:555-567): low nibble is the surface type
(0 = Polygon, 1 = closedLine, 2 = Line), bit 0x10 is `shaded`,
bit 0x20 is `two_sided`. -/
structure AcSurfFlags where
  type : Nat
  shaded : Bool
  two_sided : Bool
deriving Repr, DecidableEq

/-- The body of `AcSurfFlags.__init__` (import_ac3d.py:556-567) applied to
the already-converted integer flag word: `type = i & 0xF`, then
`i = i >> 4`, `shaded` iff `i & 1`, `two_sided` iff `i & 2`. -/
def AcSurfFlags.ofFlags (i : Nat) : AcSurfFlags :=
  let ty := i &&& 0xF
  let j := i >>> 4
  { type := ty, shaded := (j &&& 1) != 0, two_sided := (j &&& 2) != 0 }

/-- One parsed `SURF` block, `AcSurf` (import_ac3d.py:554-611): decoded
flags, material index (default 0), vertex references and their UV
coordinates. -/
structure AcSurf where
  flags : AcSurfFlags
  mat_index : Int
  refs : List Int
  uv_refs : List (List ℚ)
deriving Repr, DecidableEq

/-- `AcSurf.get_faces` (import_ac3d.py:613-619): the refs themselves when
the surface is a polygon with more than two vertices, else empty. -/
def AcSurf.get_faces (s : AcSurf) : List Int :=
  if s.flags.type = 0 ∧ s.refs.length > 2 then s.refs else []

/-- The consecutive-segment edges built by the
`for i in range(0, len(refs)-1)` loop of `AcSurf.get_edges`
(import_ac3d.py:635-637): one `[refs[i], refs[i+1]]` pair per adjacent
index pair. -/
def consecPairs : List Int → List (List Int)
  | a :: b :: rest => [a, b] :: consecPairs (b :: rest)
  | _ => []

/-- `AcSurf.get_edges` (import_ac3d.py:621-641).  Non-polygon surfaces
only: a single-ref surface becomes one degenerate self-edge
(`refs ++ refs`); otherwise the consecutive segments, plus a closing
edge `[refs[-1], refs[0]]` exactly when the surface is a closed line
with more than two refs.  The indexing `refs[len(refs)-1]` / `refs[0]`
is rendered with `getLastD`/`headD`; it is only reached under the
`len(refs) > 2` guard, where both defaults are irrelevant. -/
def AcSurf.get_edges (s : AcSurf) : List (List Int) :=
  if s.flags.type ≠ 0 then
    if s.refs.length = 1 then
      [s.refs ++ s.refs]
    else
      consecPairs s.refs ++
        (if s.flags.type = 1 ∧ s.refs.length > 2 then
          [[s.refs.getLastD 0, s.refs.headD 0]]
        else [])
  else []

/-- Python `toks[i]` returning IndexError as an `Except`. -/
def tokAt (toks : List String) (i : Nat) : Except String String :=
  match toks[i]? with
  | none => .error "IndexError: list index out of range"
  | some t => .ok t

/-- Python `int(toks[i])`: IndexError when the token is missing,
ValueError when it does not parse. -/
def tokInt (toks : List String) (i : Nat) : Except String Int :=
  match tokAt toks i with
  | .error e => .error e
  | .ok s =>
    match parsePyInt s with
    | none => .error "ValueError: invalid literal for int"
    | some v => .ok v

/-- Python `float(toks[i])`. -/
def tokFloat (toks : List String) (i : Nat) : Except String ℚ :=
  match tokAt toks i with
  | .error e => .error e
  | .ok s =>
    match parsePyFloat s with
    | none => .error "ValueError: could not convert string to float"
    | some v => .ok v

/-- `AcSurf.read_surf_refs` (import_ac3d.py:603-611), the
`for n in range(num_refs)` loop: each iteration reads a line (Python
calls `line.strip()` on it, so end of file raises AttributeError),
appends `int(line[0])` to `refs` and `[float(x) for x in line[1:3]]` to
`uv_refs`. -/
def readRefsLoop : Nat → AcSurf → RState → Except String (AcSurf × RState)
  | 0, surf, st => .ok (surf, st)
  | n + 1, surf, st =>
    match readLine st with
    | (none, _) => .error "AttributeError: NoneType has no attribute strip"
    | (some line, st1) =>
      let toks := pySplit (pyStrip line)
      match tokAt toks 0 with
      | .error e => .error e
      | .ok t0 =>
        match parsePyInt t0 with
        | none => .error "ValueError: invalid literal for int"
        | some r =>
          match mapPyFloats ((toks.drop 1).take 2) with
          | .error e => .error e
          | .ok uv =>
            readRefsLoop n
              { surf with refs := surf.refs ++ [r], uv_refs := surf.uv_refs ++ [uv] }
              st1

/-- `AcSurf.read_ac_surfaces` (import_ac3d.py:586-597): the token loop of
one `SURF` block.  `mat` updates the material index and continues;
`refs` runs the refs loop and terminates the surface; any other token
terminates the surface (consuming the line); end of file terminates the
surface. -/
def readSurfLoop : Nat → AcSurf → RState → Except String (AcSurf × RState)
  | 0, _, _ => .error "model: out of fuel"
  | fuel + 1, surf, st =>
    match readLine st with
    | (none, st1) => .ok (surf, st1)
    | (some line, st1) =>
      let toks := pySplit line
      match toks with
      | [] => readSurfLoop fuel surf st1
      | t :: _ =>
        if t = "mat" then
          match tokInt toks 1 with
          | .error e => .error e
          | .ok v => readSurfLoop fuel { surf with mat_index := v } st1
        else if t = "refs" then
          match tokInt toks 1 with
          | .error e => .error e
          | .ok n => readRefsLoop n.toNat surf st1
        else
          .ok (surf, st1)

/-- `AcSurf.__init__` (import_ac3d.py:572-584): decode the flags token
with `int(flags, 16)` (ValueError on a malformed token) and run the
surface token loop with empty refs and material index 0. -/
def parseAcSurf (fuel : Nat) (flagsTok : String) (st : RState) :
    Except String (AcSurf × RState) :=
  match parseHexInt flagsTok with
  | none => .error "ValueError: invalid literal for int with base 16"
  | some i =>
    readSurfLoop fuel
      { flags := AcSurfFlags.ofFlags i, mat_index := 0, refs := [], uv_refs := [] }
      st

/-- The import configuration fields consulted by the object parser
(`ImportConf`, import_ac3d.py:643-675).  Only `hide_hidden_objects` is
read by a field handler; the remaining fields configure host-side
Blender behaviour and are not modelled. -/
structure ImportConf where
  hide_hidden_objects : Bool
deriving Repr, DecidableEq

/-- One parsed `OBJECT` block, `AcObj` (import_ac3d.py:202-250), with the
defaults of `__init__`.  `subdiv` has no initialiser in the source (the
attribute first exists when `read_subdiv` runs), hence an `Option`.
`readPrevious` is likewise first created when `read_vertices` or
`read_children` assigns it on the object; `readLine` only ever consults
the flag of the `ImportAC3D` world instance, never this one.  The
`ac_parent`/`world` back-references, the Blender-side `bl_*` fields and
the derived `face_list`/`edge_list` fields (built later by
`create_blender_object`) are not stored. -/
structure AcObj where
  type : String
  name : String := ""
  data : String := ""
  tex_name : String := ""
  texrep : ℚ × ℚ := (1, 1)
  texoff : List ℚ := [0, 0]
  location : List ℚ := [0, 0, 0]
  rotation : List (List ℚ) := [[1, 0, 0], [0, 1, 0], [0, 0, 1]]
  url : String := ""
  crease : ℚ := 61
  subdiv : Option Int := none
  hidden : Bool := false
  vert_list : List (List ℚ) := []
  surf_list : List AcSurf := []
  children : List AcObj := []
  readPrevious : Bool := false

/-- `AcObj.read_vertices` (import_ac3d.py:269-278), the
`for n in range(vertex_count)` loop: each line is read (end of file
raises AttributeError via `line.strip()`), split, and either appended
as a vertex of floats (`len(line) > 2`) or, for a short line, the
object-level `readPrevious` flag is set and the loop breaks — note this
sets the flag on the `AcObj`, not on the world reader. -/
def readVerticesLoop : Nat → AcObj → RState → Except String (AcObj × RState)
  | 0, obj, st => .ok (obj, st)
  | n + 1, obj, st =>
    match readLine st with
    | (none, _) => .error "AttributeError: NoneType has no attribute strip"
    | (some line, st1) =>
      let toks := pySplit (pyStrip line)
      if toks.length > 2 then
        match mapPyFloats toks with
        | .error e => .error e
        | .ok v =>
          readVerticesLoop n { obj with vert_list := obj.vert_list ++ [v] } st1
      else
        .ok ({ obj with readPrevious := true }, st1)

/-- `AcObj.read_surfaces` (import_ac3d.py:280-293), the
`for n in range(surf_count)` loop: end of file breaks the loop; a
`SURF` line parses one surface and appends it only when it is a
non-polygon or has more than two refs (a degenerate polygon is traced
and dropped); any other line is consumed without effect. -/
def readSurfacesLoop (fuel : Nat) : Nat → AcObj → RState → Except String (AcObj × RState)
  | 0, obj, st => .ok (obj, st)
  | n + 1, obj, st =>
    match readLine st with
    | (none, st1) => .ok (obj, st1)
    | (some line, st1) =>
      let toks := pySplit (pyStrip line)
      match tokAt toks 0 with
      | .error e => .error e
      | .ok t0 =>
        if t0 = "SURF" then
          match tokAt toks 1 with
          | .error e => .error e
          | .ok flagsTok =>
            match parseAcSurf fuel flagsTok st1 with
            | .error e => .error e
            | .ok (surf, st2) =>
              if surf.flags.type ≠ 0 ∨ surf.refs.length > 2 then
                readSurfacesLoop fuel n
                  { obj with surf_list := obj.surf_list ++ [surf] } st2
              else
                readSurfacesLoop fuel n obj st2
        else
          readSurfacesLoop fuel n obj st1

/-- Python `line[:chars]` slicing with a possibly negative bound. -/
def pySliceTo (l : List Char) (c : Int) : List Char :=
  let k : Int := if c < 0 then (l.length : Int) + c else c
  l.take k.toNat

/-- The `while (chars > count)` loop of `AcObj.read_data`
(import_ac3d.py:305-306): keeps consuming lines, adding
`len(line) + 1` to the running count (end of file makes `len(None)`
raise). -/
def readDataLoop : Nat → Int → Int → RState → Except String RState
  | 0, _, _, _ => .error "model: out of fuel"
  | fuel + 1, chars, count, st =>
    if chars > count then
      match readLine st with
      | (none, _) => .error "TypeError: object of type NoneType has no len"
      | (some l, st1) => readDataLoop fuel chars (count + l.data.length + 1) st1
    else
      .ok st

/-- `AcObj.read_data` (import_ac3d.py:299-307): reads the next line,
takes its first `chars` characters as the data payload (a `None` line
raises when sliced), then consumes further lines while the declared
byte count exceeds the characters consumed so far. -/
def read_data (fuel : Nat) (obj : AcObj) (toks : List String) (st : RState) :
    Except String (AcObj × RState) :=
  match readLine st with
  | (lineOpt, st1) =>
    match tokInt toks 1 with
    | .error e => .error e
    | .ok chars =>
      match lineOpt with
      | none => .error "TypeError: NoneType is not subscriptable"
      | some line =>
        let obj1 := { obj with data := String.mk (pySliceTo line.data chars) }
        match readDataLoop fuel chars (Int.ofNat line.data.length + 1) st1 with
        | .error e => .error e
        | .ok st2 => .ok (obj1, st2)

/-- `AcObj.read_name` (import_ac3d.py:295-297). -/
def read_name (obj : AcObj) (toks : List String) : Except String AcObj :=
  match tokAt toks 1 with
  | .error e => .error e
  | .ok t => .ok { obj with name := pyStripQuotes t }

/-- `AcObj.read_url` (import_ac3d.py:317-320). -/
def read_url (obj : AcObj) (toks : List String) : Except String AcObj :=
  match tokAt toks 1 with
  | .error e => .error e
  | .ok t => .ok { obj with url := pyStripQuotes t }

/-- `AcObj.read_texture` (import_ac3d.py:341-343). -/
def read_texture (obj : AcObj) (toks : List String) : Except String AcObj :=
  match tokAt toks 1 with
  | .error e => .error e
  | .ok t => .ok { obj with tex_name := pyStripQuotes t }

/-- `AcObj.read_texrep` (import_ac3d.py:345-348). -/
def read_texrep (obj : AcObj) (toks : List String) : Except String AcObj :=
  match tokFloat toks 1 with
  | .error e => .error e
  | .ok a =>
    match tokFloat toks 2 with
    | .error e => .error e
    | .ok b => .ok { obj with texrep := (a, b) }

/-- `AcObj.read_texoff` (import_ac3d.py:350-352). -/
def read_texoff (obj : AcObj) (toks : List String) : Except String AcObj :=
  match tokFloat toks 1 with
  | .error e => .error e
  | .ok a =>
    match tokFloat toks 2 with
    | .error e => .error e
    | .ok b => .ok { obj with texoff := [a, b] }

/-- `AcObj.read_subdiv` (import_ac3d.py:354-356). -/
def read_subdiv (obj : AcObj) (toks : List String) : Except String AcObj :=
  match tokInt toks 1 with
  | .error e => .error e
  | .ok v => .ok { obj with subdiv := some v }

/-- `AcObj.read_crease` (import_ac3d.py:358-360). -/
def read_crease (obj : AcObj) (toks : List String) : Except String AcObj :=
  match tokFloat toks 1 with
  | .error e => .error e
  | .ok v => .ok { obj with crease := v }

/-- `AcObj.read_location` (import_ac3d.py:322-324):
`Vector([float(x) for x in toks[1:4]])`.  The `mathutils.Vector`
dimension constraint (it rejects fewer than two components) is
host-side and not modelled; the parsed components are stored. -/
def read_location (obj : AcObj) (toks : List String) : Except String AcObj :=
  match mapPyFloats ((toks.drop 1).take 3) with
  | .error e => .error e
  | .ok v => .ok { obj with location := v }

/-- `AcObj.read_rotation` (import_ac3d.py:326-339): parses the nine
floats of `toks[1:10]` row-major and stores the transposed
(`rearranged`) 3x3 matrix.  A line with fewer than nine components
makes the host `mathutils.Matrix` constructor raise, modelled as an
error. -/
def read_rotation (obj : AcObj) (toks : List String) : Except String AcObj :=
  match mapPyFloats ((toks.drop 1).take 9) with
  | .error e => .error e
  | .ok v =>
    match v with
    | [a, b, c, d, e, f, g, h, i] =>
      .ok { obj with rotation := [[a, d, g], [b, e, h], [c, f, i]] }
    | _ => .error "ValueError: Matrix requires 3x3 components"

/-- `AcObj.read_hierarchy_state` (import_ac3d.py:309-315): only a
`hidden` token with the `hide_hidden_objects` option set has an
effect. -/
def read_hierarchy_state (cfg : ImportConf) (obj : AcObj) (toks : List String) : AcObj :=
  if toks.headD "" = "hidden" ∧ cfg.hide_hidden_objects = true then
    { obj with hidden := true }
  else
    obj

/-- The three mutually recursive control points of the object parser:
`obj ty` is `AcObj.__init__` for an `OBJECT <ty>` block, `loop o` is the
`while not bDone` token loop of `read_ac_object`, and `kids n o` is the
`for n in range(num_kids)` loop of `read_children`.  Defunctionalising
the mutual recursion into one fuel-indexed function keeps the
definition structurally recursive, so it evaluates inside the
kernel. -/
inductive PMode where
  | obj (obType : String)
  | loop (o : AcObj)
  | kids (n : Nat) (o : AcObj)

/-- The object parser: `AcObj.read_ac_object` (import_ac3d.py:256-267)
dispatching on the token table of import_ac3d.py:231-248, with
`read_children` (import_ac3d.py:362-386) recursing into child
`OBJECT` blocks.  Handlers returning `False` continue the token loop;
`kids` ends the object (returning `True`); an unrecognised token ends
the object after consuming its line; end of file ends the object.  In
`read_children`, a line with two or more tokens starts a child object
from its second token (quotes stripped); end of file breaks the loop
silently; a one-token line sets the object-level `readPrevious` flag
and breaks.  The world-type branch of `read_children` only composes
the host-side `global_matrix` and is not modelled. -/
def parseRun (cfg : ImportConf) : Nat → PMode → RState → Except String (AcObj × RState)
  | 0, _, _ => .error "model: out of fuel"
  | fuel + 1, .obj obType, st =>
    parseRun cfg fuel (.loop { type := obType, children := [] }) st
  | fuel + 1, .loop obj, st =>
    match readLine st with
    | (none, st1) => .ok (obj, st1)
    | (some line, st1) =>
      let toks := pySplit (pyStrip line)
      match toks with
      | [] => parseRun cfg fuel (.loop obj) st1
      | tok :: _ =>
        if tok = "numvert" then
          match tokInt toks 1 with
          | .error e => .error e
          | .ok n =>
            match readVerticesLoop n.toNat obj st1 with
            | .error e => .error e
            | .ok (obj1, st2) => parseRun cfg fuel (.loop obj1) st2
        else if tok = "numsurf" then
          match tokInt toks 1 with
          | .error e => .error e
          | .ok n =>
            match readSurfacesLoop fuel n.toNat obj st1 with
            | .error e => .error e
            | .ok (obj1, st2) => parseRun cfg fuel (.loop obj1) st2
        else if tok = "name" then
          match read_name obj toks with
          | .error e => .error e
          | .ok obj1 => parseRun cfg fuel (.loop obj1) st1
        else if tok = "data" then
          match read_data fuel obj toks st1 with
          | .error e => .error e
          | .ok (obj1, st2) => parseRun cfg fuel (.loop obj1) st2
        else if tok = "kids" then
          match tokInt toks 1 with
          | .error e => .error e
          | .ok n => parseRun cfg fuel (.kids n.toNat obj) st1
        else if tok = "loc" then
          match read_location obj toks with
          | .error e => .error e
          | .ok obj1 => parseRun cfg fuel (.loop obj1) st1
        else if tok = "rot" then
          match read_rotation obj toks with
          | .error e => .error e
          | .ok obj1 => parseRun cfg fuel (.loop obj1) st1
        else if tok = "texture" then
          match read_texture obj toks with
          | .error e => .error e
          | .ok obj1 => parseRun cfg fuel (.loop obj1) st1
        else if tok = "texrep" then
          match read_texrep obj toks with
          | .error e => .error e
          | .ok obj1 => parseRun cfg fuel (.loop obj1) st1
        else if tok = "texoff" then
          match read_texoff obj toks with
          | .error e => .error e
          | .ok obj1 => parseRun cfg fuel (.loop obj1) st1
        else if tok = "subdiv" then
          match read_subdiv obj toks with
          | .error e => .error e
          | .ok obj1 => parseRun cfg fuel (.loop obj1) st1
        else if tok = "crease" then
          match read_crease obj toks with
          | .error e => .error e
          | .ok obj1 => parseRun cfg fuel (.loop obj1) st1
        else if tok = "folded" ∨ tok = "locked" ∨ tok = "hidden" then
          parseRun cfg fuel (.loop (read_hierarchy_state cfg obj toks)) st1
        else if tok = "url" then
          match read_url obj toks with
          | .error e => .error e
          | .ok obj1 => parseRun cfg fuel (.loop obj1) st1
        else
          .ok (obj, st1)
  | _ + 1, .kids 0 obj, st => .ok (obj, st)
  | fuel + 1, .kids (k + 1) obj, st =>
    match readLine st with
    | (none, st1) => .ok (obj, st1)
    | (some line, st1) =>
      let toks := pySplit (pyStrip line)
      if toks.length > 1 then
        match parseRun cfg fuel (.obj (pyStripQuotes (toks.getD 1 ""))) st1 with
        | .error e => .error e
        | .ok (child, st2) =>
          parseRun cfg fuel (.kids k { obj with children := obj.children ++ [child] }) st2
      else
        .ok ({ obj with readPrevious := true }, st1)

/-- `AcObj(ob_type, ...)`: parse one `OBJECT` block of the given type. -/
def parseAcObj (cfg : ImportConf) (fuel : Nat) (obType : String) (st : RState) :
    Except String (AcObj × RState) :=
  parseRun cfg fuel (.obj obType) st

/-- `AcObj.read_children` entered with a declared count of `n` children. -/
def readChildrenLoop (cfg : ImportConf) (fuel : Nat) (n : Nat) (obj : AcObj) (st : RState) :
    Except String (AcObj × RState) :=
  parseRun cfg fuel (.kids n obj) st

/-- The `face_list` accumulation of `AcObj.create_blender_object`
(import_ac3d.py:427-470), projected onto the face list: for each
surface, `surf_face = surf.get_faces()` is computed; a polygon surface
with fewer than three refs is only traced, any other polygon surface
appends `surf_face`; non-polygon surfaces contribute nothing to the
face list (their edges go to `edge_list`).  The Blender material and
mesh bookkeeping of the loop is host-side and not modelled.  No vertex
index is ever compared against `len(vert_list)` anywhere in this
loop. -/
def face_list_of (obj : AcObj) : List (List Int) :=
  obj.surf_list.foldl
    (fun face_list surf =>
      let surf_face := surf.get_faces
      if surf.flags.type = 0 then
        if surf.refs.length < 3 then face_list
        else face_list ++ [surf_face]
      else face_list)
    []

/-- The header-reading loop of `ImportAC3D.__init__`
(import_ac3d.py:727-734).  Python `readline` keeps the trailing
newline, so even a blank first line is truthy and satisfies the
`!= ` empty-string test: the loop never iterates and the header is
simply the first physical line of the file (empty string only for an
empty file).  The model lines are newline-stripped, so this is the
head of the line list. -/
def headerLineOf : List String → String
  | [] => ""
  | l :: _ => l

/-- The header validation of `ImportAC3D.__init__`
(import_ac3d.py:736-758): strip the header line, require exactly five
characters, the literal `AC3D` in the first four, and a version
character `b` or `c` (slices `header[:4]` and `header[4:5]` rendered on
the character list).  Each failing check reports an error through the
operator and returns (no exception), modelled as `Except.error`; on
success the recognised version character is returned. -/
def acHeaderCheck (lines : List String) : Except String String :=
  let header := pyStrip (headerLineOf lines)
  if header.data.length ≠ 5 then
    .error "Invalid file header length"
  else if header.data.take 4 ≠ "AC3D".data then
    .error "Invalid file header"
  else if (header.data.drop 4).take 1 = ['b'] then
    .ok "b"
  else if (header.data.drop 4).take 1 = ['c'] then
    .ok "c"
  else
    .error "Unsupported AC3D version"

/-- Modelled from the claim words, for comparison with the code: accept
exactly when the first non-empty line (after stripping) is five
characters, starts with the literal `AC3D`, and ends in `b` or `c`. -/
def claimHeaderAccepts (lines : List String) : Bool :=
  let h := pyStrip ((lines.dropWhile (fun l => pyStrip l = "")).headD "")
  h.data.length == 5 && h.data.take 4 == "AC3D".data &&
    ((h.data.drop 4).take 1 == ['b'] || (h.data.drop 4).take 1 == ['c'])

/-- The value fields of an `.ac` material record, shared between
`AC3D.Material` (AC3D.py:348-374) and `export_ac3d.AcMat`
(export_ac3d.py:52-77): name, the three-channel `rgb`/`amb`/`emis`/
`spec` colours, `shininess` and `transparency`.  The colour lists are
rendered as indexed fields (`rgb[0]` is `rgb0`, and so on). -/
structure Material where
  name : String
  rgb0 : ℚ
  rgb1 : ℚ
  rgb2 : ℚ
  amb0 : ℚ
  amb1 : ℚ
  amb2 : ℚ
  emis0 : ℚ
  emis1 : ℚ
  emis2 : ℚ
  spec0 : ℚ
  spec1 : ℚ
  spec2 : ℚ
  shi : ℚ
  trans : ℚ
deriving Repr, DecidableEq

/-- `Material._feq` (AC3D.py:405-406): `abs(rhs - lhs) < 0.0001`. -/
def feq (lhs rhs : ℚ) : Bool :=
  decide (|rhs - lhs| < 1 / 10000)

/-- `Material.same_as` (AC3D.py:389-403): `_feq` on all nine colour
channels, the shininess and the transparency. -/
def Material.same_as (self rhs : Material) : Bool :=
  feq self.rgb0 rhs.rgb0 && feq self.rgb1 rhs.rgb1 && feq self.rgb2 rhs.rgb2 &&
  feq self.amb0 rhs.amb0 && feq self.amb1 rhs.amb1 && feq self.amb2 rhs.amb2 &&
  feq self.emis0 rhs.emis0 && feq self.emis1 rhs.emis1 && feq self.emis2 rhs.emis2 &&
  feq self.spec0 rhs.spec0 && feq self.spec1 rhs.spec1 && feq self.spec2 rhs.spec2 &&
  feq self.shi rhs.shi && feq self.trans rhs.trans

/-- The material record of the wired exporter, `export_ac3d.AcMat`; its
value fields coincide with `Material`. -/
abbrev AcMat := Material

/-- `AcMat.same_as` (export_ac3d.py:92-109): plain Python `==` equality
on all nine colour channels, the shininess and the transparency — no
tolerance. -/
def AcMat.same_as (self other : AcMat) : Bool :=
  self.rgb0 == other.rgb0 && self.rgb1 == other.rgb1 && self.rgb2 == other.rgb2 &&
  self.amb0 == other.amb0 && self.amb1 == other.amb1 && self.amb2 == other.amb2 &&
  self.emis0 == other.emis0 && self.emis1 == other.emis1 && self.emis2 == other.emis2 &&
  self.spec0 == other.spec0 && self.spec1 == other.spec1 && self.spec2 == other.spec2 &&
  self.shi == other.shi && self.trans == other.trans

/-- One step of the material deduplication of `Poly._parseMaterials`
(AC3D.py:158-206): scan the global table with `Material.same_as`; on a
hit reuse the table (the loop breaks), otherwise append the new
record. -/
def addMaterialAC3D (ac_mats : List Material) (m : Material) : List Material :=
  if ac_mats.any (fun mat => Material.same_as mat m) then ac_mats
  else ac_mats ++ [m]

/-- One step of the material deduplication of
`AcObj.parse_blender_materials` (export_ac3d.py:347-392): the
`bUniqueMaterial` scan with `AcMat.same_as`, appending when no existing
entry matches. -/
def addMaterialExport (ac_mats : List AcMat) (m : AcMat) : List AcMat :=
  if ac_mats.any (fun mat => AcMat.same_as mat m) then ac_mats
  else ac_mats ++ [m]

/-- Deduplication of a whole sequence of materials into an initially
empty global table (the exporter walks every object and feeds each
material through the scan-then-append step). -/
def buildMatsAC3D (ms : List Material) : List Material :=
  ms.foldl addMaterialAC3D []

/-- Deduplication of a whole material sequence by the wired exporter. -/
def buildMatsExport (ms : List AcMat) : List AcMat :=
  ms.foldl addMaterialExport []

/-- `Poly.Surface.SurfaceFlags` (AC3D.py:314-329), identical to
`AcSurf.AcSurfFlags` of export_ac3d.py:118-135. -/
structure SurfaceFlags where
  surf_type : Nat
  smooth_shaded : Bool
  twosided : Bool
deriving Repr, DecidableEq

/-- `SurfaceFlags.getFlags` (AC3D.py:323-329) =
`AcSurfFlags.get_flags` (export_ac3d.py:129-135):
`n = surf_type & 0x0f`, or-ing in 0x10 when smooth shaded and 0x20 when
two-sided. -/
def SurfaceFlags.getFlags (f : SurfaceFlags) : Nat :=
  let n := f.surf_type &&& 0x0f
  let n := if f.smooth_shaded then n ||| 0x10 else n
  let n := if f.twosided then n ||| 0x20 else n
  n

/-- The per-face UV coordinates handed to the exporter surface
(`uv_tex_face` with fields `uv1`..`uv4`). -/
structure UVFace where
  uv1 : ℚ × ℚ
  uv2 : ℚ × ℚ
  uv3 : ℚ × ℚ
  uv4 : ℚ × ℚ
deriving Repr, DecidableEq

/-- The fields of a Blender face consumed by `parse_blender_face`:
the four raw vertex indices (`vertices_raw`, the fourth is 0 for a
triangle), the smoothing flag and the material slot index. -/
structure BlFace where
  vertices_raw0 : Nat
  vertices_raw1 : Nat
  vertices_raw2 : Nat
  vertices_raw3 : Nat
  use_smooth : Bool
  material_index : Nat
deriving Repr, DecidableEq

/-- The exporter surface: material index, vertex refs, UV refs and the
flag word, as built by `Poly.Surface.__init__` (AC3D.py:252-269) /
`AcSurf.__init__` (export_ac3d.py:137-155). -/
structure ExpSurf where
  mat : Nat
  refs : List Nat
  uv_refs : List (ℚ × ℚ)
  ac_surf_flags : SurfaceFlags
deriving Repr, DecidableEq

/-- `Poly.Surface.__init__` followed by `parse_blender_face`
(AC3D.py:252-312), matching `AcSurf.parse_blender_face`
(export_ac3d.py:167-194): the flag word starts as
`SurfaceFlags(0, False, True)`; the first three raw vertices are
always appended with their UVs (or `[0,0]` placeholders); the fourth
raw vertex is appended exactly when it is nonzero; the material index
is looked up in the local-to-global map (`ac_mats` in AC3D.py keeps
`mat = 0` on a missing key); finally `smooth_shaded` and `twosided`
are overwritten from the face and the mesh. -/
def parse_blender_face (bl_face : BlFace) (uv_face : Option UVFace)
    (is_two_sided : Bool) (ac_mats : List (Nat × Nat)) : ExpSurf :=
  let refs0 := [bl_face.vertices_raw0, bl_face.vertices_raw1, bl_face.vertices_raw2]
  let uv0 :=
    match uv_face with
    | some uv => [uv.uv1, uv.uv2, uv.uv3]
    | none => [(0, 0), (0, 0), (0, 0)]
  let refs1 :=
    if bl_face.vertices_raw3 ≠ 0 then refs0 ++ [bl_face.vertices_raw3] else refs0
  let uv1 :=
    if bl_face.vertices_raw3 ≠ 0 then
      uv0 ++ [match uv_face with | some uv => uv.uv4 | none => (0, 0)]
    else uv0
  let mat :=
    match ac_mats.lookup bl_face.material_index with
    | some v => v
    | none => 0
  { mat := mat,
    refs := refs1,
    uv_refs := uv1,
    ac_surf_flags :=
      { surf_type := 0, smooth_shaded := bl_face.use_smooth, twosided := is_two_sided } }

/-- Projects a parser result onto the parsed object, discarding the final
reader state; `none` when the parse raised an exception. -/
def parsedObj (r : Except String (AcObj × RState)) : Option AcObj :=
  match r with
  | .ok (o, _) => some o
  | .error _ => none

/-- The import configuration with every modelled option off. -/
def cfgDefault : ImportConf := { hide_hidden_objects := false }

/-- A freshly initialised world object, as built by `AcObj.__init__` for
an `OBJECT world` line. -/
def worldObj0 : AcObj := { type := "world", children := [] }

/-- A freshly initialised poly object. -/
def polyObj0 : AcObj := { type := "poly", children := [] }

/-- The surface parsed from `SURF 0x10 / mat 0 / refs 3` with refs
`0 0 0`, `1 0 0`, `2 0 1`: a shaded one-sided polygon on three
vertices. -/
def keptSurf : AcSurf :=
  { flags := { type := 0, shaded := true, two_sided := false },
    mat_index := 0, refs := [0, 1, 2], uv_refs := [[0, 0], [0, 0], [0, 1]] }

/-- A concrete three-ref closed line. -/
def closedLine3 : AcSurf :=
  { flags := { type := 1, shaded := false, two_sided := false },
    mat_index := 0, refs := [0, 1, 2], uv_refs := [] }

/-- The `DefaultWhite` defaults of AC3D.py:352-362 as an exact material
record. -/
def defaultWhite : Material :=
  { name := "DefaultWhite",
    rgb0 := 1, rgb1 := 1, rgb2 := 1,
    amb0 := 1 / 5, amb1 := 1 / 5, amb2 := 1 / 5,
    emis0 := 0, emis1 := 0, emis2 := 0,
    spec0 := 1 / 2, spec1 := 1 / 2, spec2 := 1 / 2,
    shi := 10, trans := 0 }

/-- The same record with the transparency moved by half the tolerance. -/
def defaultWhiteNearby : Material := { defaultWhite with trans := 1 / 20000 }

/-- The children loop never collects more children than one per declared
kid: each loop iteration of `read_children` appends at most one child
object. -/
lemma parseRun_kids_children_le (cfg : ImportConf) :
    ∀ (fuel n : Nat) (obj : AcObj) (st : RState) (res : AcObj × RState),
      parseRun cfg fuel (.kids n obj) st = .ok res →
      res.1.children.length ≤ obj.children.length + n := by
  intro fuel
  induction fuel with
  | zero =>
    intro n obj st res h
    simp [parseRun] at h
  | succ f ih =>
    intro n obj st res h
    cases n with
    | zero =>
      simp [parseRun] at h
      subst h
      simp
    | succ k =>
      rw [parseRun] at h
      rcases hrl : readLine st with ⟨lo, st1⟩
      rw [hrl] at h
      cases lo with
      | none =>
        simp at h
        subst h
        simp
      | some line =>
        simp only at h
        by_cases hlen : (pySplit (pyStrip line)).length > 1
        · rw [if_pos hlen] at h
          rcases hc : parseRun cfg f (.obj (pyStripQuotes ((pySplit (pyStrip line)).getD 1 ""))) st1 with e | p
          · rw [hc] at h
            cases h
          · rw [hc] at h
            obtain ⟨child, st2⟩ := p
            have hrec := ih k { obj with children := obj.children ++ [child] } st2 res h
            simp at hrec
            omega
        · rw [if_neg hlen] at h
          simp at h
          subst h
          simp

/-- C2 (amended): after `read_children` with a declared count of `n`, the
object holds at most `n` more children than before — and nothing in the
loop reports an error when the input runs out early, so an inflated
`kids` count silently yields fewer children than declared rather than a
fatal error (the original claim of a fatal error, and of declared count
always equalling `len(children)`, fails; see the counterexample). -/
theorem C2_children_count (cfg : ImportConf) (fuel n : Nat) (obj : AcObj)
    (st : RState) (k : Nat)
    (h : (parsedObj (readChildrenLoop cfg fuel n obj st)).map
          (fun o => o.children.length) = some k) :
    k ≤ obj.children.length + n := by
  unfold readChildrenLoop at h
  rcases hres : parseRun cfg fuel (.kids n obj) st with e | res
  · rw [hres] at h
    simp [parsedObj] at h
  · rw [hres] at h
    simp [parsedObj] at h
    rw [← h]
    exact parseRun_kids_children_le cfg fuel n obj st res hres

/-- Witness for C2_children_count: a world object whose `kids 2` loop
finds only one child block before end of file collects one child,
within the declared bound of two. -/
theorem C2_children_count_witness :
    1 ≤ worldObj0.children.length + 2 :=
  C2_children_count cfgDefault 49 2 worldObj0
    (RState.init ["OBJECT poly", "kids 0"]) 1 rfl

/-- C2 counterexample: a file declaring `kids 2` on the world object with
only one child block before end of file parses without any error and
yields one child — the parse is a silently truncated tree, not the
fatal error the claim requires, and the declared count 2 differs from
the parsed children count 1. -/
theorem C2_kids_overrun_silent :
    (parsedObj (parseAcObj cfgDefault 50 "world"
        (RState.init ["kids 2", "OBJECT poly", "kids 0"]))).map
      (fun o => o.children.length) = some 1 ∧ (1 : Nat) ≠ 2 :=
  ⟨rfl, by decide⟩

/-- The surface-reading loop only ever appends surfaces passing the
`surf.flags.type != 0 or len(surf.refs) > 2` filter of
`read_surfaces`. -/
lemma readSurfacesLoop_inv (fuel : Nat) :
    ∀ (n : Nat) (obj : AcObj) (st : RState) (res : AcObj × RState),
      readSurfacesLoop fuel n obj st = .ok res →
      (∀ s ∈ obj.surf_list, s.flags.type ≠ 0 ∨ s.refs.length > 2) →
      ∀ s ∈ res.1.surf_list, s.flags.type ≠ 0 ∨ s.refs.length > 2 := by
  intro n
  induction n with
  | zero =>
    intro obj st res h hInv
    simp [readSurfacesLoop] at h
    subst h
    exact hInv
  | succ k ih =>
    intro obj st res h hInv
    rw [readSurfacesLoop] at h
    rcases hrl : readLine st with ⟨lo, st1⟩
    rw [hrl] at h
    cases lo with
    | none =>
      simp at h
      subst h
      exact hInv
    | some line =>
      simp only at h
      rcases h0 : tokAt (pySplit (pyStrip line)) 0 with e | t0
      · rw [h0] at h
        cases h
      · rw [h0] at h
        simp only at h
        by_cases hSurf : t0 = "SURF"
        · rw [if_pos hSurf] at h
          rcases h1 : tokAt (pySplit (pyStrip line)) 1 with e | flagsTok
          · rw [h1] at h
            cases h
          · rw [h1] at h
            simp only at h
            rcases h2 : parseAcSurf fuel flagsTok st1 with e | p
            · rw [h2] at h
              cases h
            · rw [h2] at h
              obtain ⟨surf, st2⟩ := p
              simp only at h
              by_cases hKeep : surf.flags.type ≠ 0 ∨ surf.refs.length > 2
              · rw [if_pos hKeep] at h
                refine ih _ st2 res h ?_
                intro s hs
                rcases List.mem_append.mp hs with hIn | hNew
                · exact hInv s hIn
                · rw [List.mem_singleton.mp hNew]
                  exact hKeep
              · rw [if_neg hKeep] at h
                exact ih _ st2 res h hInv
        · rw [if_neg hSurf] at h
          exact ih _ st1 res h hInv

/-- C7 (amended): a polygon-type surface with fewer than three refs is
dropped from the surface list at read time by `read_surfaces` (a trace
message only, no error): after a surface-reading loop returns, every
surface actually retained in the list is a non-polygon or has more
than two refs, so the degenerate polygon never reaches face-list
generation (the original claim that it is retained in the raw surface
list fails; see the counterexample). -/
theorem C7_degenerate_dropped (fuel n : Nat) (obj : AcObj) (st : RState)
    (out : List AcSurf)
    (hInv : ∀ s ∈ obj.surf_list, s.flags.type ≠ 0 ∨ s.refs.length > 2)
    (h : (parsedObj (readSurfacesLoop fuel n obj st)).map
          (fun o => o.surf_list) = some out) :
    ∀ s ∈ out, s.flags.type ≠ 0 ∨ s.refs.length > 2 := by
  rcases hres : readSurfacesLoop fuel n obj st with e | res
  · rw [hres] at h
    simp [parsedObj] at h
  · rw [hres] at h
    simp [parsedObj] at h
    rw [← h]
    exact readSurfacesLoop_inv fuel n obj st res hres hInv

/-- Witness for C7_degenerate_dropped: parsing one declared surface that
is a three-ref shaded polygon retains it, and the retention invariant
instantiated at that concrete surface says it is a non-polygon or has
more than two refs. -/
theorem C7_degenerate_dropped_witness :
    keptSurf.flags.type ≠ 0 ∨ keptSurf.refs.length > 2 :=
  C7_degenerate_dropped 50 1 polyObj0
    (RState.init ["SURF 0x10", "mat 0", "refs 3", "0 0 0", "1 0 0", "2 0 1"])
    [keptSurf] (by simp [polyObj0]) rfl keptSurf (List.mem_singleton.mpr rfl)

/-- C7 counterexample: a poly object whose single declared surface is a
polygon with two refs parses without error, but the surface is not
retained: the raw surface list of the parsed node is empty, not of
length one as the claim requires. -/
theorem C7_degenerate_not_retained :
    (parsedObj (parseAcObj cfgDefault 50 "poly"
        (RState.init ["numvert 2", "0 0 0", "1 0 0", "numsurf 1", "SURF 0x0",
          "mat 0", "refs 2", "0 0 0", "1 1 0", "kids 0"]))).map
      (fun o => o.surf_list.length) = some 0 ∧ (0 : Nat) ≠ 1 :=
  ⟨rfl, by decide⟩

/-- The face-list fold appends exactly the `get_faces` of the polygon
surfaces with at least three refs, in order. -/
lemma face_list_foldl (l : List AcSurf) (acc : List (List Int)) :
    l.foldl
      (fun face_list surf =>
        let surf_face := surf.get_faces
        if surf.flags.type = 0 then
          if surf.refs.length < 3 then face_list
          else face_list ++ [surf_face]
        else face_list)
      acc =
    acc ++ (l.filter
        (fun s => s.flags.type == 0 && decide (3 ≤ s.refs.length))).map
      (fun s => s.refs) := by
  induction l generalizing acc with
  | nil => simp
  | cons s t ih =>
    by_cases h0 : s.flags.type = 0
    · by_cases h3 : s.refs.length < 3
      · have hf : (s.flags.type == 0 && decide (3 ≤ s.refs.length)) = false := by
          simp [h0]
          omega
        simp only [List.foldl_cons, List.filter_cons, hf]
        rw [if_pos h0, if_pos h3]
        exact ih acc
      · have ht : (s.flags.type == 0 && decide (3 ≤ s.refs.length)) = true := by
          simp [h0]
          omega
        have hface : s.get_faces = s.refs := by
          simp only [AcSurf.get_faces]
          rw [if_pos ⟨h0, by omega⟩]
        simp only [List.foldl_cons, List.filter_cons, ht]
        rw [if_pos h0, if_neg h3]
        simp only [hface]
        rw [ih (acc ++ [s.refs])]
        simp
    · have hf : (s.flags.type == 0 && decide (3 ≤ s.refs.length)) = false := by
        simp [h0]
      simp only [List.foldl_cons, List.filter_cons, hf]
      rw [if_neg h0]
      exact ih acc

/-- C6 (amended): the face list built by `create_blender_object` is
exactly the refs of the polygon surfaces with at least three refs —
no vertex index is ever compared against the length of the vertex
list, so an out-of-range reference passes straight into the face list
(the original claim that such a face is dropped fails; see the
counterexample; downstream, the code relies on the host mesh
`validate()` call).  Processing never aborts: the fold is total over
the surface list. -/
theorem C6_face_list_unchecked (obj : AcObj) :
    face_list_of obj =
      (obj.surf_list.filter
          (fun s => s.flags.type == 0 && decide (3 ≤ s.refs.length))).map
        (fun s => s.refs) := by
  unfold face_list_of
  simpa using face_list_foldl obj.surf_list []

/-- C6 counterexample: a poly object with three vertices whose single
surface references vertex index 5 parses without error, and the face
`[0, 1, 5]` appears in the generated face list even though `5` is not
smaller than the vertex count 3 — the claim requires this face to have
been dropped. -/
theorem C6_out_of_range_ref_kept :
    (parsedObj (parseAcObj cfgDefault 50 "poly"
        (RState.init ["numvert 3", "0 0 0", "1 0 0", "0 1 0", "numsurf 1",
          "SURF 0x0", "mat 0", "refs 3", "0 0 0", "1 1 0", "5 0 1",
          "kids 0"]))).map
      (fun o => (o.vert_list.length, face_list_of o)) =
      some (3, [[0, 1, 5]]) ∧ ¬((5 : Int) < 3) :=
  ⟨rfl, by decide⟩

/-- C8: the pushback signalled by `read_vertices` never reaches the line
reader.  On an object block `numvert 2 / 0 0 0 / kids 0 / name "after"`
the second vertex line turns out to be the `kids 0` line of the
enclosing context; `read_vertices` sets `readPrevious` — but on the
`AcObj`, while `readLine` consults only the world reader flag, which
stays false.  First conjunct: directly after the vertex loop the
object flag is true, the world flag is false, and the very next
`readLine` returns the following line `name "after"`, not `kids 0`
again.  Second conjunct: consequently the whole object parse consumes
`name "after"` as a field of the same object (name becomes `after`, the
swallowed `kids` line never runs its handler) instead of rereading
`kids 0`. -/
theorem C8_pushback_lost :
    ((match readVerticesLoop 2 polyObj0
        (RState.init ["0 0 0", "kids 0", "name \"after\""]) with
      | .ok (o, st) => some (o.readPrevious, st.readPrevious, (readLine st).1)
      | .error _ => none) =
      some (true, false, some "name \"after\"")) ∧
    ((match parseAcObj cfgDefault 50 "poly"
        (RState.init ["numvert 2", "0 0 0", "kids 0", "name \"after\""]) with
      | .ok (o, st) => some (o.name, o.vert_list.length, o.readPrevious, st.lines)
      | .error _ => none) =
      some ("after", 1, true, [])) :=
  ⟨rfl, rfl⟩

/-- The segment loop produces one edge per adjacent pair of refs. -/
lemma consecPairs_length : ∀ l : List Int, (consecPairs l).length = l.length - 1
  | [] => rfl
  | [_] => rfl
  | a :: b :: rest => by
    have h := consecPairs_length (b :: rest)
    simp only [consecPairs, List.length_cons] at h ⊢
    omega

/-- C5 (amended): for a ClosedLine surface (type 1), `get_edges` yields
exactly one degenerate self-edge for a single ref, exactly one edge
for two refs (the closing edge is only appended when there are more
than two refs, so a two-ref closed line yields one edge, not the two
the original claim states — see the counterexample), and exactly `n`
edges (`n - 1` segments plus the closing edge) for `n ≥ 3` refs. -/
theorem C5_closedline_edges (s : AcSurf) (h1 : s.flags.type = 1) :
    (s.refs.length = 1 → s.get_edges.length = 1) ∧
    (s.refs.length = 2 → s.get_edges.length = 1) ∧
    (3 ≤ s.refs.length → s.get_edges.length = s.refs.length) := by
  have hne : s.flags.type ≠ 0 := by omega
  refine ⟨?_, ?_, ?_⟩
  · intro hlen
    simp [AcSurf.get_edges, hne, hlen]
  · intro hlen
    have hnot1 : ¬s.refs.length = 1 := by omega
    have hnot2 : ¬(s.flags.type = 1 ∧ s.refs.length > 2) := by
      rintro ⟨-, hgt⟩
      omega
    simp only [AcSurf.get_edges]
    rw [if_pos hne, if_neg hnot1, if_neg hnot2]
    simp [consecPairs_length, hlen]
  · intro hlen
    have hnot1 : ¬s.refs.length = 1 := by omega
    have hgt : s.flags.type = 1 ∧ s.refs.length > 2 := ⟨h1, by omega⟩
    simp only [AcSurf.get_edges]
    rw [if_pos hne, if_neg hnot1, if_pos hgt]
    simp [consecPairs_length]
    omega

/-- Witness for C5_closedline_edges: the three-ref closed line yields
three edges. -/
theorem C5_closedline_edges_witness :
    closedLine3.get_edges.length = closedLine3.refs.length :=
  (C5_closedline_edges closedLine3 rfl).2.2 (by decide)

/-- C5 counterexample: a ClosedLine surface with exactly two refs yields
the single segment edge `[0, 1]` — one edge, not the two edges the
claim states. -/
theorem C5_two_ref_closedline_one_edge :
    (AcSurf.get_edges
        { flags := { type := 1, shaded := false, two_sided := false },
          mat_index := 0, refs := [0, 1], uv_refs := [] }) = [[0, 1]] ∧
    ¬(AcSurf.get_edges
        { flags := { type := 1, shaded := false, two_sided := false },
          mat_index := 0, refs := [0, 1], uv_refs := [] }).length = 2 :=
  ⟨rfl, by decide⟩

/-- A conjunction with a power-of-two mask is nonzero exactly when the
corresponding bit is set. -/
lemma and_pow_ne_zero (x i : Nat) : x &&& 2 ^ i ≠ 0 ↔ x.testBit i = true := by
  rw [Nat.and_two_pow]
  cases h : x.testBit i <;> simp [h]

/-- Testing bit 0 after a right shift by four is testing bit 0x10. -/
lemma shaded_bit (flags : Nat) : (flags >>> 4) &&& 1 ≠ 0 ↔ flags &&& 16 ≠ 0 := by
  have h1 : (1 : Nat) = 2 ^ 0 := rfl
  have h16 : (16 : Nat) = 2 ^ 4 := rfl
  rw [h1, h16, and_pow_ne_zero, and_pow_ne_zero, Nat.testBit_shiftRight]

/-- Testing bit 1 after a right shift by four is testing bit 0x20. -/
lemma twosided_bit (flags : Nat) : (flags >>> 4) &&& 2 ≠ 0 ↔ flags &&& 32 ≠ 0 := by
  have h2 : (2 : Nat) = 2 ^ 1 := rfl
  have h32 : (32 : Nat) = 2 ^ 5 := rfl
  rw [h2, h32, and_pow_ne_zero, and_pow_ne_zero, Nat.testBit_shiftRight]

/-- C4: for every flag word, the decoded surface type is `flags & 0xF`,
`shaded` holds exactly when bit 0x10 is set and `two_sided` exactly
when bit 0x20 is set; the hex token `0x0` decodes to a flat one-sided
polygon and `0x30` to a shaded two-sided polygon; and the flag
encoding `getFlags` of the exporter is a right inverse of this
decoding whenever the surface type fits the low nibble. -/
theorem C4_surf_flag_decoding :
    (∀ flags : Nat,
        (AcSurfFlags.ofFlags flags).type = flags &&& 0xF ∧
        ((AcSurfFlags.ofFlags flags).shaded = true ↔ flags &&& 0x10 ≠ 0) ∧
        ((AcSurfFlags.ofFlags flags).two_sided = true ↔ flags &&& 0x20 ≠ 0)) ∧
    (parseHexInt "0x0").map AcSurfFlags.ofFlags =
      some { type := 0, shaded := false, two_sided := false } ∧
    (parseHexInt "0x30").map AcSurfFlags.ofFlags =
      some { type := 0, shaded := true, two_sided := true } ∧
    (∀ t : Nat, t < 16 → ∀ sm ts : Bool,
        AcSurfFlags.ofFlags (SurfaceFlags.getFlags ⟨t, sm, ts⟩) =
          { type := t, shaded := sm, two_sided := ts }) := by
  refine ⟨?_, rfl, rfl, by decide⟩
  intro flags
  refine ⟨rfl, ?_, ?_⟩
  · simp only [AcSurfFlags.ofFlags, bne_iff_ne, ne_eq]
    exact shaded_bit flags
  · simp only [AcSurfFlags.ofFlags, bne_iff_ne, ne_eq]
    exact twosided_bit flags

/-- Witness for C4_surf_flag_decoding: encoding a shaded two-sided
polygon and decoding it recovers the same classification. -/
theorem C4_surf_flag_decoding_witness :
    AcSurfFlags.ofFlags (SurfaceFlags.getFlags ⟨0, true, true⟩) =
      { type := 0, shaded := true, two_sided := true } :=
  C4_surf_flag_decoding.2.2.2 0 (by decide) true true

/-- A five-character list decomposes into its five members. -/
lemma list_len5 : ∀ l : List Char, l.length = 5 →
    ∃ a b c d e, l = [a, b, c, d, e]
  | [], h => by simp at h
  | [_], h => by simp at h
  | [_, _], h => by simp at h
  | [_, _, _], h => by simp at h
  | [_, _, _, _], h => by simp at h
  | [a, b, c, d, e], _ => ⟨a, b, c, d, e, rfl⟩
  | _ :: _ :: _ :: _ :: _ :: _ :: t, h => by simp at h

/-- A string passes the three header checks exactly when it is the
literal `AC3Db` or `AC3Dc`. -/
lemma headerCheckString (h : String) :
    (h.data.length = 5 ∧ h.data.take 4 = "AC3D".data ∧
      ((h.data.drop 4).take 1 = ['b'] ∨ (h.data.drop 4).take 1 = ['c'])) ↔
    (h = "AC3Db" ∨ h = "AC3Dc") := by
  obtain ⟨data⟩ := h
  constructor
  · rintro ⟨h5, h4, hbc⟩
    obtain ⟨a, b, c, d, e, hd⟩ := list_len5 data h5
    subst hd
    simp only [List.take, List.drop] at h4 hbc
    have h4x : a = 'A' ∧ b = 'C' ∧ c = '3' ∧ d = 'D' := by
      simpa using h4
    obtain ⟨ha, hb, hc, hd2⟩ := h4x
    subst ha; subst hb; subst hc; subst hd2
    rcases hbc with he | he
    · left
      have : e = 'b' := by simpa using he
      subst this
      rfl
    · right
      have : e = 'c' := by simpa using he
      subst this
      rfl
  · rintro (he | he) <;> rw [he] <;> exact ⟨rfl, rfl, by simp⟩

/-- C9 (amended): the header check aborts with a reported error (never an
uncaught exception: every failure path is a reported return) exactly
when the *first* line of the file — not the first non-empty line; the
header loop never skips a blank line, since the raw line keeps its
newline — does not strip to `AC3Db` or `AC3Dc`; equivalently, parsing
proceeds exactly on a stripped first line of `AC3Db` or `AC3Dc` (five
characters, `AC3D` literal, version `b` or `c`). -/
theorem C9_header_first_line (lines : List String) :
    (acHeaderCheck lines).isOk = true ↔
      (pyStrip (headerLineOf lines) = "AC3Db" ∨
        pyStrip (headerLineOf lines) = "AC3Dc") := by
  rw [← headerCheckString (pyStrip (headerLineOf lines))]
  unfold acHeaderCheck
  set h := pyStrip (headerLineOf lines) with hh
  by_cases h5 : h.data.length = 5
  · by_cases h4 : h.data.take 4 = "AC3D".data
    · by_cases hb : (h.data.drop 4).take 1 = ['b']
      · simp [h5, h4, hb, Except.isOk, Except.toBool]
      · by_cases hc : (h.data.drop 4).take 1 = ['c']
        · simp [h5, h4, hb, hc, Except.isOk, Except.toBool]
        · simp [h5, h4, hb, hc, Except.isOk, Except.toBool]
    · simp [h5, h4, Except.isOk, Except.toBool]
  · have h5L : ¬h.length = 5 := h5
    simp [h5, h5L, Except.isOk, Except.toBool]

/-- Witness for C9_header_first_line: a file whose first line is `AC3Db`
passes the header check. -/
theorem C9_header_first_line_witness :
    (acHeaderCheck ["AC3Db"]).isOk = true :=
  (C9_header_first_line ["AC3Db"]).mpr (Or.inl rfl)

/-- C9 counterexample: a file opening with a blank line followed by
`AC3Db` satisfies the claim criterion (its first non-empty line,
stripped, is a valid five-character header), yet the code aborts: the
header loop takes the blank first line as the header and fails the
length check. -/
theorem C9_blank_first_line :
    claimHeaderAccepts ["", "AC3Db"] = true ∧
    (acHeaderCheck ["", "AC3Db"]).isOk = false :=
  ⟨rfl, rfl⟩

/-- The tolerance comparison holds reflexively. -/
lemma feq_refl (a : ℚ) : feq a a = true := by
  simp [feq]

/-- The AC3D.py material comparison is reflexive. -/
lemma Material_same_as_refl (m : Material) : Material.same_as m m = true := by
  simp [Material.same_as, feq_refl]

/-- The export_ac3d.py material comparison is reflexive. -/
lemma AcMat_same_as_refl (m : AcMat) : AcMat.same_as m m = true := by
  simp [AcMat.same_as]

/-- Re-adding a material already in a singleton table is a no-op
(AC3D.py dedup). -/
lemma addMaterialAC3D_self (m : Material) : addMaterialAC3D [m] m = [m] := by
  simp [addMaterialAC3D, Material_same_as_refl]

/-- Re-adding a material already in a singleton table is a no-op
(export_ac3d.py dedup). -/
lemma addMaterialExport_self (m : AcMat) : addMaterialExport [m] m = [m] := by
  simp [addMaterialExport, AcMat_same_as_refl]

/-- Folding any number of copies of a material into a table already
holding it leaves the table unchanged (AC3D.py dedup). -/
lemma foldl_addAC3D_replicate (m : Material) :
    ∀ n, List.foldl addMaterialAC3D [m] (List.replicate n m) = [m]
  | 0 => rfl
  | n + 1 => by
    rw [List.replicate_succ, List.foldl_cons, addMaterialAC3D_self]
    exact foldl_addAC3D_replicate m n

/-- Folding any number of copies of a material into a table already
holding it leaves the table unchanged (export_ac3d.py dedup). -/
lemma foldl_addExport_replicate (m : AcMat) :
    ∀ n, List.foldl addMaterialExport [m] (List.replicate n m) = [m]
  | 0 => rfl
  | n + 1 => by
    rw [List.replicate_succ, List.foldl_cons, addMaterialExport_self]
    exact foldl_addExport_replicate m n

/-- Changing only the shininess by more than the tolerance defeats the
AC3D.py comparison. -/
lemma Material_same_as_shi_ne (m : Material) (q : ℚ)
    (h : 1 / 10000 < |q - m.shi|) :
    Material.same_as m { m with shi := q } = false := by
  have hs : feq m.shi q = false := by
    simp [feq]
    rw [one_div] at h
    exact h.le
  simp [Material.same_as, hs]

/-- Changing only the shininess to a different value defeats the
export_ac3d.py comparison. -/
lemma AcMat_same_as_shi_ne (m : AcMat) (q : ℚ) (h : m.shi ≠ q) :
    AcMat.same_as m { m with shi := q } = false := by
  have hs : (m.shi == q) = false := by simpa using h
  simp [AcMat.same_as, hs]

/-- C3 (amended): the tolerance criterion of the claim holds for
`Material.same_as` of AC3D.py — it returns true exactly when all nine
colour channels, the shininess and the transparency agree within 1e-4;
but the `same_as` of the wired exporter, `AcMat.same_as` of
export_ac3d.py, instead requires exact equality of those fields (see
the counterexample for a pair within tolerance that it rejects).  The
deduplication counts of the claim hold for both: any number of copies
of one material value deduplicate to a single table entry, and two
materials differing only in shininess by more than 1e-4 give two
entries. -/
theorem C3_material_equality :
    (∀ a b : Material, Material.same_as a b = true ↔
        (|b.rgb0 - a.rgb0| < 1 / 10000 ∧ |b.rgb1 - a.rgb1| < 1 / 10000 ∧
         |b.rgb2 - a.rgb2| < 1 / 10000 ∧ |b.amb0 - a.amb0| < 1 / 10000 ∧
         |b.amb1 - a.amb1| < 1 / 10000 ∧ |b.amb2 - a.amb2| < 1 / 10000 ∧
         |b.emis0 - a.emis0| < 1 / 10000 ∧ |b.emis1 - a.emis1| < 1 / 10000 ∧
         |b.emis2 - a.emis2| < 1 / 10000 ∧ |b.spec0 - a.spec0| < 1 / 10000 ∧
         |b.spec1 - a.spec1| < 1 / 10000 ∧ |b.spec2 - a.spec2| < 1 / 10000 ∧
         |b.shi - a.shi| < 1 / 10000 ∧ |b.trans - a.trans| < 1 / 10000)) ∧
    (∀ a b : AcMat, AcMat.same_as a b = true ↔
        (a.rgb0 = b.rgb0 ∧ a.rgb1 = b.rgb1 ∧ a.rgb2 = b.rgb2 ∧
         a.amb0 = b.amb0 ∧ a.amb1 = b.amb1 ∧ a.amb2 = b.amb2 ∧
         a.emis0 = b.emis0 ∧ a.emis1 = b.emis1 ∧ a.emis2 = b.emis2 ∧
         a.spec0 = b.spec0 ∧ a.spec1 = b.spec1 ∧ a.spec2 = b.spec2 ∧
         a.shi = b.shi ∧ a.trans = b.trans)) ∧
    (∀ (m : Material) (n : Nat),
        buildMatsAC3D (List.replicate (n + 1) m) = [m]) ∧
    (∀ (m : Material) (q : ℚ), 1 / 10000 < |q - m.shi| →
        buildMatsAC3D [m, { m with shi := q }] = [m, { m with shi := q }]) ∧
    (∀ (m : AcMat) (n : Nat),
        buildMatsExport (List.replicate (n + 1) m) = [m]) ∧
    (∀ (m : AcMat) (q : ℚ), 1 / 10000 < |q - m.shi| →
        buildMatsExport [m, { m with shi := q }] = [m, { m with shi := q }]) := by
  refine ⟨?_, ?_, ?_, ?_, ?_, ?_⟩
  · intro a b
    simp [Material.same_as, feq, and_assoc]
  · intro a b
    simp [AcMat.same_as, and_assoc]
  · intro m n
    rw [List.replicate_succ]
    unfold buildMatsAC3D
    rw [List.foldl_cons]
    have h0 : addMaterialAC3D [] m = [m] := by simp [addMaterialAC3D]
    rw [h0]
    exact foldl_addAC3D_replicate m n
  · intro m q h
    have hne := Material_same_as_shi_ne m q h
    simp [buildMatsAC3D, addMaterialAC3D, hne]
  · intro m n
    rw [List.replicate_succ]
    unfold buildMatsExport
    rw [List.foldl_cons]
    have h0 : addMaterialExport [] m = [m] := by simp [addMaterialExport]
    rw [h0]
    exact foldl_addExport_replicate m n
  · intro m q h
    have hq : m.shi ≠ q := by
      intro hEq
      rw [hEq] at h
      simp at h
      exact absurd h (by norm_num)
    have hne := AcMat_same_as_shi_ne m q hq
    simp [buildMatsExport, addMaterialExport, hne]

/-- Witness for C3_material_equality: shininess 10 versus 11 differs by
more than the tolerance, so the AC3D.py table keeps both entries. -/
theorem C3_material_equality_witness :
    buildMatsAC3D [defaultWhite, { defaultWhite with shi := 11 }] =
      [defaultWhite, { defaultWhite with shi := 11 }] :=
  C3_material_equality.2.2.2.1 defaultWhite 11 (by norm_num [defaultWhite])

/-- C3 counterexample: two materials identical except for a transparency
difference of 5e-5 — within the claimed 1e-4 tolerance, and indeed
equal for `Material.same_as` of AC3D.py — are *not* treated as the
same by `AcMat.same_as` of the exporter that is actually wired up
(export_ac3d.py), whose table keeps two entries; the claimed
criterion (same iff within 1e-4) is therefore false for it. -/
theorem C3_exact_equality_refutes_tolerance :
    Material.same_as defaultWhite defaultWhiteNearby = true ∧
    AcMat.same_as defaultWhite defaultWhiteNearby = false ∧
    buildMatsExport [defaultWhite, defaultWhiteNearby] =
      [defaultWhite, defaultWhiteNearby] := by
  have hne : AcMat.same_as defaultWhite defaultWhiteNearby = false := by
    simp [AcMat.same_as, defaultWhite, defaultWhiteNearby]
  refine ⟨?_, hne, ?_⟩
  · simp [Material.same_as, feq, defaultWhite, defaultWhiteNearby, abs_lt]
    norm_num
  · simp [buildMatsExport, addMaterialExport, hne]

/-- C10: every surface the exporter writes has three or four refs, four
exactly when the fourth raw vertex index of the source face is nonzero
(so a quad whose fourth raw index happens to be 0 is emitted as a
triangle); the surface type field stays 0, and the flag word written by
`getFlags` decodes back to type 0 — the exporter never emits a line or
closed-line surface type. -/
theorem C10_export_surface_refs (bl_face : BlFace) (uv_face : Option UVFace)
    (ts : Bool) (mats : List (Nat × Nat)) :
    ((parse_blender_face bl_face uv_face ts mats).refs.length = 3 ∨
      (parse_blender_face bl_face uv_face ts mats).refs.length = 4) ∧
    ((parse_blender_face bl_face uv_face ts mats).refs.length = 4 ↔
      bl_face.vertices_raw3 ≠ 0) ∧
    (parse_blender_face bl_face uv_face ts mats).ac_surf_flags.surf_type = 0 ∧
    (AcSurfFlags.ofFlags
        ((parse_blender_face bl_face uv_face ts mats).ac_surf_flags.getFlags)).type
      = 0 := by
  refine ⟨?_, ?_, rfl, ?_⟩
  · by_cases h4 : bl_face.vertices_raw3 = 0 <;> simp [parse_blender_face, h4]
  · by_cases h4 : bl_face.vertices_raw3 = 0 <;> simp [parse_blender_face, h4]
  · have hfl : (parse_blender_face bl_face uv_face ts mats).ac_surf_flags =
        ⟨0, bl_face.use_smooth, ts⟩ := rfl
    rw [hfl]
    cases hsm : bl_face.use_smooth <;> cases ts <;> rfl

/-- Witness for C10_export_surface_refs: a face with nonzero fourth raw
vertex index exports with four refs. -/
theorem C10_export_surface_refs_witness :
    (parse_blender_face ⟨0, 1, 2, 3, false, 0⟩ none true []).refs.length = 4 :=
  (C10_export_surface_refs ⟨0, 1, 2, 3, false, 0⟩ none true []).2.1.mpr (by decide)
